import Mathlib

/-!
# Cart, checkout and order history of the point-of-sale simulator

A shallow embedding of `design-patterns-and-exception-handling-Yabut.cpp`
(classes `PaymentStrategy` and its four singletons, `Product`, `Order`,
`ShoppingCart`, and the catalog of `main`), followed by the properties of the
cart / checkout / order lifecycle.

Modelling conventions.

* A C++ array `T a[N]` is a total map `Nat → T` together with its declared
  capacity `N`.  Slots that the program has not written hold indeterminate
  values, so nothing is assumed about them: a fresh cart is any state whose
  counters have their in-class initial values.  Reading `a[i]` is function
  application; an assignment `a[i] = v` goes through `writeAt`, which yields
  `Undefined.indexOutOfBounds` when `i` is not below the capacity (the C++
  behaviour is undefined there).
* `int` values that the program adds are `Int` wrapped to 32 bits
  (`wrapInt32`): signed overflow is undefined in C++, and the embedding takes
  the two's complement result of the usual targets.  `itemCount` and
  `orderCount` are only ever used as the index of a write that precedes their
  increment, so they are `Nat`.
* `double` values are rationals and `+`, `*` are exact: rounding is not part
  of this embedding.  For the catalog of `main` (prices 100, 20, 15, 10, 10)
  every product and sum below 2^53 is exact in binary64 as well.
* `Product*` entries of the cart point at catalog records that are never
  mutated, so a pointer is modelled by the record it points to.
* Console output, the prompts and the `order_log.txt` writer are not state of
  `ShoppingCart` and are left out; what a call reports is kept as the
  constructor of its result.
-/

namespace Shop

/-! ## Constants -/

/-- Capacity constant `MAX_PRODUCTS` (line 9). -/
def MAX_PRODUCTS : Nat := 100

/-- Capacity constant `MAX_CART_ITEMS` (line 10): size of the cart arrays. -/
def MAX_CART_ITEMS : Nat := 50

/-- Capacity constant `MAX_ORDERS` (line 11): size of `orderHistory`. -/
def MAX_ORDERS : Nat := 50

/-- Largest value of a 32-bit `int`. -/
def INT_MAX : Int := 2147483647

/-- Two's complement wrap-around of a mathematical integer into the range of a
32-bit `int`. -/
def wrapInt32 (x : Int) : Int := (x + 2147483648) % 4294967296 - 2147483648

/-! ## Undefined behaviour and array writes -/

/-- Undefined behaviour the embedding tracks: an array element assignment
whose index is outside the declared array. -/
inductive Undefined where
  | indexOutOfBounds (index capacity : Nat)
deriving DecidableEq, Repr

/-- Assignment `arr[i] = v` to an array declared with `capacity` elements. -/
def writeAt {α : Type} (capacity : Nat) (arr : Nat → α) (i : Nat) (v : α) :
    Except Undefined (Nat → α) :=
  if i < capacity then .ok (Function.update arr i v)
  else .error (.indexOutOfBounds i capacity)

/-! ## Payment strategies (lines 19-77) -/

/-- The four singleton payment strategies. -/
inductive PaymentStrategy where
  | CashPayment
  | CreditCardPayment
  | DebitCardPayment
  | GcashPayment
deriving DecidableEq, Repr

/-- Method `pay()` of each strategy. -/
def PaymentStrategy.pay : PaymentStrategy → String
  | .CashPayment => "Cash"
  | .CreditCardPayment => "Credit Card"
  | .DebitCardPayment => "Debit Card"
  | .GcashPayment => "GCash"

/-- The statement `for (char& c : paymentType) c = tolower(c);` (line 211):
every character is replaced by its `tolower` image, which in the default locale
maps `A`..`Z` to `a`..`z` and leaves every other character as it is. -/
def lowerCase (paymentType : String) : String :=
  ⟨paymentType.data.map Char.toLower⟩

/-- One pass through the body of the payment loop (lines 210-217) for the
entered line `paymentType`: the strategy assigned to `paymentMethod`, or `none`
when the `else` branch prints `Invalid payment method!` and `paymentMethod`
stays `nullptr`. -/
def selectPayment (paymentType : String) : Option PaymentStrategy :=
  let paymentType := lowerCase paymentType
  if paymentType = "cash" then some .CashPayment
  else if paymentType = "credit card" then some .CreditCardPayment
  else if paymentType = "debit card" then some .DebitCardPayment
  else if paymentType = "gcash" then some .GcashPayment
  else none

/-- The `do ... while (paymentMethod == nullptr)` loop (lines 208-219) run on
the lines the user enters, in order: the strategy of the first accepted line.
`none` means that every entered line was rejected, so the loop has not exited. -/
def paymentLoop : List String → Option PaymentStrategy
  | [] => none
  | paymentType :: more =>
    match selectPayment paymentType with
    | some paymentMethod => some paymentMethod
    | none => paymentLoop more

/-! ## Product and Order (lines 79-145) -/

/-- Class `Product`. -/
structure Product where
  productName : String
  productID : Int
  productPrice : ℚ
deriving DecidableEq, Repr

/-- Content standing for a slot built by `Product()`, which leaves `productID`
and `productPrice` indeterminate; no property depends on it. -/
instance : Inhabited Product := ⟨⟨"", 0, 0⟩⟩

/-- Class `Order`. -/
structure Order where
  orderID : Int
  customerName : String
  customerContact : String
  customerAddress : String
  orderTotal : ℚ
  orderPayment : String
  orderItems : Nat → Product
  orderQuantities : Nat → Int
  itemCount : Nat

/-- Constructor `Order(id, name, total, items, quantities, count, payment)`
(lines 116-126): the first `count` slots are copied, the remaining slots and
the two unset strings keep their default-constructed content. -/
def Order.new (id : Int) (name : String) (total : ℚ) (items : Nat → Product)
    (quantities : Nat → Int) (count : Nat) (payment : String) : Order :=
  { orderID := id
    customerName := name
    customerContact := ""
    customerAddress := ""
    orderTotal := total
    orderPayment := payment
    itemCount := count
    orderItems := fun i => if i < count then items i else default
    orderQuantities := fun i => if i < count then quantities i else 0 }

/-! ## ShoppingCart (lines 147-303) -/

/-- Data members of class `ShoppingCart`. -/
structure ShoppingCart where
  productList : Nat → Product
  productQty : Nat → Int
  itemCount : Nat
  totalAmount : ℚ
  orderHistory : Nat → Order
  orderCounter : Int
  orderCount : Nat

/-- Method `clearCart` (lines 299-302). -/
def clearCart (c : ShoppingCart) : ShoppingCart :=
  { c with itemCount := 0, totalAmount := 0 }

/-- The search loop of `addProduct` (lines 171-179): the first index below
`itemCount` whose product has the given id, if there is one. -/
def findLine (c : ShoppingCart) (productID : Int) : Option Nat :=
  (List.range c.itemCount).find? fun i => (c.productList i).productID = productID

/-- Method `addProduct` (lines 168-190). -/
def addProduct (c : ShoppingCart) (product : Product) (quantity : Int) :
    Except Undefined ShoppingCart :=
  match findLine c product.productID with
  | some i => do
    let productQty ← writeAt MAX_CART_ITEMS c.productQty i
      (wrapInt32 (c.productQty i + quantity))
    pure { c with
      productQty := productQty
      totalAmount := c.totalAmount + product.productPrice * quantity }
  | none => do
    let productList ← writeAt MAX_CART_ITEMS c.productList c.itemCount product
    let productQty ← writeAt MAX_CART_ITEMS c.productQty c.itemCount quantity
    pure { c with
      productList := productList
      productQty := productQty
      totalAmount := c.totalAmount + product.productPrice * quantity
      itemCount := c.itemCount + 1 }

/-- What a call of `checkoutOrder` does. -/
inductive Checkout where
  /-- The guard of lines 193-196 printed the empty-cart message and returned. -/
  | emptyCart (after : ShoppingCart)
  /-- Every entered payment line was rejected: the loop of lines 208-219 is
  still asking and nothing after it has run. -/
  | askingPayment
  /-- The order was recorded and the cart cleared. -/
  | checkedOut (after : ShoppingCart)
  /-- The call ran into undefined behaviour. -/
  | undefined (u : Undefined)

/-- The copy loop of `checkoutOrder` (lines 223-228) after `n` iterations: the
local arrays `items` and `quantities`, both declared with `MAX_CART_ITEMS`
elements, with the lines 0, ..., n - 1 of the cart copied into them. -/
def copyLines (c : ShoppingCart) : Nat → Except Undefined ((Nat → Product) × (Nat → Int))
  | 0 => .ok (fun _ => default, fun _ => 0)
  | i + 1 =>
    match copyLines c i with
    | .error u => .error u
    | .ok (items, quantities) =>
      match writeAt MAX_CART_ITEMS items i (c.productList i) with
      | .error u => .error u
      | .ok items =>
        match writeAt MAX_CART_ITEMS quantities i (c.productQty i) with
        | .error u => .error u
        | .ok quantities => .ok (items, quantities)

/-- Method `checkoutOrder` (lines 192-252) for the entered customer name and
the entered payment lines. -/
def checkoutOrder (c : ShoppingCart) (name : String) (paymentTypes : List String) :
    Checkout :=
  if c.itemCount = 0 then .emptyCart c
  else
    match paymentLoop paymentTypes with
    | none => .askingPayment
    | some paymentMethod =>
      let paymentUsed := paymentMethod.pay
      match copyLines c c.itemCount with
      | .error u => .undefined u
      | .ok (items, quantities) =>
        match writeAt MAX_ORDERS c.orderHistory c.orderCount
            (Order.new c.orderCounter name c.totalAmount items quantities
              c.itemCount paymentUsed) with
        | .error u => .undefined u
        | .ok orderHistory =>
          .checkedOut (clearCart { c with
            orderHistory := orderHistory
            orderCount := c.orderCount + 1
            orderCounter := wrapInt32 (c.orderCounter + 1) })

/-- A freshly constructed `ShoppingCart`: the in-class initialisers of lines
152-157.  The arrays are not initialised, so their content is unconstrained. -/
def Fresh (c : ShoppingCart) : Prop :=
  c.itemCount = 0 ∧ c.totalAmount = 0 ∧ c.orderCounter = 1 ∧ c.orderCount = 0

/-- Calls of `addProduct` with any product and a quantity that is a positive
`int`, as `main` passes it (lines 388-392). -/
def AnyProduct : ShoppingCart → Product → Int → Prop :=
  fun _ _ quantity => 1 ≤ quantity ∧ quantity ≤ INT_MAX

/-- States a `ShoppingCart` goes through, starting from a fresh object, under
any sequence of calls that return: `addProduct` (with arguments allowed by
`admissible`), `clearCart`, `checkoutOrder` stopped by the empty-cart guard, and
`checkoutOrder` that records an order after any number of rejected payment
lines.  The index counts the checkouts that recorded an order. -/
inductive Run (admissible : ShoppingCart → Product → Int → Prop) :
    Nat → ShoppingCart → Prop where
  | fresh {c : ShoppingCart} : Fresh c → Run admissible 0 c
  | add {n : Nat} {c c' : ShoppingCart} (product : Product) (quantity : Int) :
      Run admissible n c → admissible c product quantity →
      addProduct c product quantity = .ok c' → Run admissible n c'
  | clear {n : Nat} {c : ShoppingCart} :
      Run admissible n c → Run admissible n (clearCart c)
  | guarded {n : Nat} {c c' : ShoppingCart} (name : String)
      (paymentTypes : List String) :
      Run admissible n c → checkoutOrder c name paymentTypes = .emptyCart c' →
      Run admissible n c'
  | recorded {n : Nat} {c c' : ShoppingCart} (name : String)
      (paymentTypes : List String) :
      Run admissible n c → checkoutOrder c name paymentTypes = .checkedOut c' →
      Run admissible (n + 1) c'

/-! ## Notions used to state the properties -/

/-- Largest `orderID` among the first `n` recorded orders, `none` when `n = 0`. -/
def maxOrderID (orderHistory : Nat → Order) : Nat → Option Int
  | 0 => none
  | n + 1 =>
    match maxOrderID orderHistory n with
    | none => some (orderHistory n).orderID
    | some m => some (max m (orderHistory n).orderID)

/-- The id the next order is expected to get: the largest recorded id plus one,
or 1 when no order has been recorded. -/
def expectedNextID (c : ShoppingCart) : Int :=
  match maxOrderID c.orderHistory c.orderCount with
  | none => 1
  | some m => m + 1

/-- No two of the cart lines hold the same product id. -/
def UniqueLines (c : ShoppingCart) : Prop :=
  ∀ i j, i < c.itemCount → j < c.itemCount →
    (c.productList i).productID = (c.productList j).productID → i = j

/-- Consecutive calls `addProduct(&product, quantity)` for the listed pairs of
product and quantity, in order. -/
def addProducts (c : ShoppingCart) : List (Product × Int) → Except Undefined ShoppingCart
  | [] => .ok c
  | (product, quantity) :: more =>
    match addProduct c product quantity with
    | .ok c' => addProducts c' more
    | .error u => .error u

/-- A `ShoppingCart` object right after construction, with some content chosen
for the slots the constructor leaves indeterminate. -/
def newCart : ShoppingCart :=
  { productList := fun _ => default
    productQty := fun _ => 0
    itemCount := 0
    totalAmount := 0
    orderHistory := fun _ => Order.new 0 "" 0 (fun _ => default) (fun _ => 0) 0 ""
    orderCounter := 1
    orderCount := 0 }

/-- The state after a call of `checkoutOrder` that records an order for the
customer `name` with the strategy `paymentMethod` (lines 221-251). -/
def afterCheckout (c : ShoppingCart) (name : String) (paymentMethod : PaymentStrategy) :
    ShoppingCart :=
  clearCart { c with
    orderHistory := Function.update c.orderHistory c.orderCount
      (Order.new c.orderCounter name c.totalAmount
        (fun i => if i < c.itemCount then c.productList i else default)
        (fun i => if i < c.itemCount then c.productQty i else 0)
        c.itemCount paymentMethod.pay)
    orderCount := c.orderCount + 1
    orderCounter := wrapInt32 (c.orderCounter + 1) }

/-- Facts that hold of every state of a run with `n` recorded orders. -/
structure Inv (n : Nat) (c : ShoppingCart) : Prop where
  cart_le : c.itemCount ≤ MAX_CART_ITEMS
  count_eq : c.orderCount = n
  count_le : n ≤ MAX_ORDERS
  counter_eq : c.orderCounter = n + 1
  ids : ∀ i, i < n → (c.orderHistory i).orderID = i + 1
  unique : UniqueLines c
  qty_range : ∀ i, i < c.itemCount →
    -2147483648 ≤ c.productQty i ∧ c.productQty i ≤ INT_MAX

/-- One purchase as `main` drives it: `addProduct` of the catalog's Notebook with
quantity 1, then `checkoutOrder` paid by cash.  `none` when one of the two
calls does not return a state. -/
def purchase (c : ShoppingCart) : Option ShoppingCart :=
  match addProduct c ⟨"Notebook", 101, 100⟩ 1 with
  | .ok c' =>
    match checkoutOrder c' "Ana" ["cash"] with
    | .checkedOut c'' => some c''
    | _ => none
  | .error _ => none

/-- From the given cart, `k` purchases in a row. -/
def purchases : Nat → ShoppingCart → Option ShoppingCart
  | 0, c => some c
  | k + 1, c =>
    match purchases k c with
    | some c' => purchase c'
    | none => none

/-! # Properties -/

/-! ## Basic facts about the operations -/

theorem wrapInt32_of_inRange {x : Int} (hlo : -2147483648 ≤ x) (hhi : x ≤ INT_MAX) :
    wrapInt32 x = x := by
  unfold wrapInt32
  unfold INT_MAX at hhi
  omega

theorem wrapInt32_bounds (x : Int) :
    -2147483648 ≤ wrapInt32 x ∧ wrapInt32 x ≤ INT_MAX := by
  unfold wrapInt32 INT_MAX
  omega

theorem writeAt_eq_ok {α : Type} {capacity : Nat} {arr a : Nat → α} {i : Nat} {v : α}
    (h : writeAt capacity arr i v = .ok a) :
    i < capacity ∧ a = Function.update arr i v := by
  unfold writeAt at h
  split at h
  · rename_i hi
    injection h with h
    exact ⟨hi, h.symm⟩
  · cases h

theorem writeAt_of_lt {α : Type} {capacity : Nat} (arr : Nat → α) {i : Nat} (v : α)
    (h : i < capacity) : writeAt capacity arr i v = .ok (Function.update arr i v) := by
  simp [writeAt, h]

theorem writeAt_of_not_lt {α : Type} {capacity : Nat} (arr : Nat → α) {i : Nat} (v : α)
    (h : ¬ i < capacity) :
    writeAt capacity arr i v = .error (.indexOutOfBounds i capacity) := by
  simp [writeAt, h]

theorem findLine_eq_some {c : ShoppingCart} {productID : Int} {i : Nat}
    (h : findLine c productID = some i) :
    i < c.itemCount ∧ (c.productList i).productID = productID := by
  unfold findLine at h
  have h1 := List.mem_of_find?_eq_some h
  have h2 := List.find?_some h
  exact ⟨List.mem_range.mp h1, by simpa using h2⟩

theorem findLine_eq_none {c : ShoppingCart} {productID : Int} :
    findLine c productID = none ↔
      ∀ i, i < c.itemCount → (c.productList i).productID ≠ productID := by
  unfold findLine
  simp [List.find?_eq_none]

theorem findLine_of_unique {c : ShoppingCart} (hu : UniqueLines c) {i : Nat}
    (hi : i < c.itemCount) : findLine c (c.productList i).productID = some i := by
  cases h : findLine c (c.productList i).productID with
  | none => exact absurd rfl (findLine_eq_none.mp h i hi)
  | some j =>
    obtain ⟨hj, hid⟩ := findLine_eq_some h
    rw [hu j i hj hi hid]

/-- The two ways in which `addProduct` returns. -/
theorem addProduct_eq_ok {c c' : ShoppingCart} {product : Product} {quantity : Int}
    (h : addProduct c product quantity = .ok c') :
    (∃ i, findLine c product.productID = some i ∧ i < MAX_CART_ITEMS ∧
        c' = { c with
          productQty := Function.update c.productQty i
            (wrapInt32 (c.productQty i + quantity))
          totalAmount := c.totalAmount + product.productPrice * quantity }) ∨
    (findLine c product.productID = none ∧ c.itemCount < MAX_CART_ITEMS ∧
        c' = { c with
          productList := Function.update c.productList c.itemCount product
          productQty := Function.update c.productQty c.itemCount quantity
          totalAmount := c.totalAmount + product.productPrice * quantity
          itemCount := c.itemCount + 1 }) := by
  unfold addProduct at h
  split at h
  · rename_i i hfind
    left
    refine ⟨i, hfind, ?_⟩
    by_cases hi : i < MAX_CART_ITEMS
    · rw [writeAt_of_lt _ _ hi] at h
      injection h with h
      exact ⟨hi, h.symm⟩
    · rw [writeAt_of_not_lt _ _ hi] at h
      cases h
  · rename_i hfind
    right
    refine ⟨hfind, ?_⟩
    by_cases hi : c.itemCount < MAX_CART_ITEMS
    · rw [writeAt_of_lt _ _ hi, writeAt_of_lt _ _ hi] at h
      injection h with h
      exact ⟨hi, h.symm⟩
    · rw [writeAt_of_not_lt _ _ hi] at h
      cases h

theorem addProduct_found {c : ShoppingCart} {product : Product} {i : Nat}
    (quantity : Int) (hfind : findLine c product.productID = some i)
    (hi : i < MAX_CART_ITEMS) :
    addProduct c product quantity = .ok { c with
      productQty := Function.update c.productQty i
        (wrapInt32 (c.productQty i + quantity))
      totalAmount := c.totalAmount + product.productPrice * quantity } := by
  unfold addProduct
  rw [hfind]
  simp only [writeAt_of_lt _ _ hi]
  rfl

theorem addProduct_new {c : ShoppingCart} {product : Product}
    (quantity : Int) (hfind : findLine c product.productID = none)
    (hi : c.itemCount < MAX_CART_ITEMS) :
    addProduct c product quantity = .ok { c with
      productList := Function.update c.productList c.itemCount product
      productQty := Function.update c.productQty c.itemCount quantity
      totalAmount := c.totalAmount + product.productPrice * quantity
      itemCount := c.itemCount + 1 } := by
  unfold addProduct
  rw [hfind]
  simp only [writeAt_of_lt _ _ hi]
  rfl

theorem copyLines_eq_ok {c : ShoppingCart} :
    ∀ {n : Nat} {copied : (Nat → Product) × (Nat → Int)},
      copyLines c n = .ok copied →
      n ≤ MAX_CART_ITEMS ∧
        copied = (fun i => if i < n then c.productList i else default,
          fun i => if i < n then c.productQty i else 0) := by
  intro n
  induction n with
  | zero =>
    intro copied h
    injection h with h
    subst h
    exact ⟨Nat.zero_le _, by simp⟩
  | succ k ih =>
    intro copied h
    unfold copyLines at h
    split at h
    · cases h
    · rename_i items quantities hk
      obtain ⟨-, hcopied⟩ := ih hk
      injection hcopied with hitems hquantities
      by_cases hlt : k < MAX_CART_ITEMS
      · rw [writeAt_of_lt _ _ hlt, writeAt_of_lt _ _ hlt] at h
        injection h with h
        subst h hitems hquantities
        refine ⟨hlt, ?_⟩
        congr 1 <;> funext i <;> by_cases hik : i = k
        · subst hik; simp
        · rw [Function.update_noteq hik]
          have : i < k + 1 ↔ i < k := by omega
          simp only [this]
        · subst hik; simp
        · rw [Function.update_noteq hik]
          have : i < k + 1 ↔ i < k := by omega
          simp only [this]
      · rw [writeAt_of_not_lt _ _ hlt] at h
        cases h

theorem copyLines_of_le (c : ShoppingCart) :
    ∀ {n : Nat}, n ≤ MAX_CART_ITEMS →
      copyLines c n = .ok (fun i => if i < n then c.productList i else default,
        fun i => if i < n then c.productQty i else 0) := by
  intro n
  induction n with
  | zero =>
    intro _
    simp [copyLines]
  | succ k ih =>
    intro hle
    have hlt : k < MAX_CART_ITEMS := hle
    have hk := ih (Nat.le_of_lt hlt)
    cases hres : copyLines c (k + 1) with
    | ok copied => rw [(copyLines_eq_ok hres).2]
    | error u =>
      unfold copyLines at hres
      rw [hk] at hres
      simp only [writeAt_of_lt _ _ hlt] at hres
      cases hres

theorem copyLines_of_gt (c : ShoppingCart) :
    ∀ {n : Nat}, MAX_CART_ITEMS < n →
      copyLines c n = .error (.indexOutOfBounds MAX_CART_ITEMS MAX_CART_ITEMS) := by
  intro n
  induction n with
  | zero => intro h; exact absurd h (Nat.not_lt_zero _)
  | succ k ih =>
    intro hlt
    unfold copyLines
    by_cases hk : MAX_CART_ITEMS < k
    · rw [ih hk]
    · have hk' : k = MAX_CART_ITEMS := by omega
      subst hk'
      rw [copyLines_of_le c (Nat.le_refl _)]
      simp only [writeAt_of_not_lt _ _ (Nat.lt_irrefl _)]

theorem checkoutOrder_guard {c : ShoppingCart} (name : String)
    (paymentTypes : List String) (hcart : c.itemCount = 0) :
    checkoutOrder c name paymentTypes = .emptyCart c := by
  unfold checkoutOrder
  rw [if_pos hcart]

theorem checkoutOrder_asking {c : ShoppingCart} (name : String)
    {paymentTypes : List String} (hcart : c.itemCount ≠ 0)
    (hpay : paymentLoop paymentTypes = none) :
    checkoutOrder c name paymentTypes = .askingPayment := by
  unfold checkoutOrder
  rw [if_neg hcart, hpay]

theorem checkoutOrder_copy_overrun {c : ShoppingCart} (name : String)
    {paymentTypes : List String} {paymentMethod : PaymentStrategy}
    (hcart : c.itemCount ≠ 0) (hcap : MAX_CART_ITEMS < c.itemCount)
    (hpay : paymentLoop paymentTypes = some paymentMethod) :
    checkoutOrder c name paymentTypes =
      .undefined (.indexOutOfBounds MAX_CART_ITEMS MAX_CART_ITEMS) := by
  unfold checkoutOrder
  rw [if_neg hcart, hpay]
  simp only [copyLines_of_gt c hcap]

theorem checkoutOrder_history_overrun {c : ShoppingCart} (name : String)
    {paymentTypes : List String} {paymentMethod : PaymentStrategy}
    (hcart : c.itemCount ≠ 0) (hcap : c.itemCount ≤ MAX_CART_ITEMS)
    (hpay : paymentLoop paymentTypes = some paymentMethod)
    (hroom : ¬ c.orderCount < MAX_ORDERS) :
    checkoutOrder c name paymentTypes =
      .undefined (.indexOutOfBounds c.orderCount MAX_ORDERS) := by
  unfold checkoutOrder
  rw [if_neg hcart, hpay]
  simp only [copyLines_of_le c hcap, writeAt_of_not_lt _ _ hroom]

theorem checkoutOrder_recorded {c : ShoppingCart} (name : String)
    {paymentTypes : List String} {paymentMethod : PaymentStrategy}
    (hcart : c.itemCount ≠ 0) (hcap : c.itemCount ≤ MAX_CART_ITEMS)
    (hpay : paymentLoop paymentTypes = some paymentMethod)
    (hroom : c.orderCount < MAX_ORDERS) :
    checkoutOrder c name paymentTypes = .checkedOut (afterCheckout c name paymentMethod) := by
  unfold checkoutOrder
  rw [if_neg hcart, hpay]
  simp only [copyLines_of_le c hcap, writeAt_of_lt _ _ hroom]
  rfl

theorem checkoutOrder_eq_checkedOut {c c' : ShoppingCart} {name : String}
    {paymentTypes : List String}
    (h : checkoutOrder c name paymentTypes = .checkedOut c') :
    c.itemCount ≠ 0 ∧ c.itemCount ≤ MAX_CART_ITEMS ∧ c.orderCount < MAX_ORDERS ∧
      ∃ paymentMethod, paymentLoop paymentTypes = some paymentMethod ∧
        c' = afterCheckout c name paymentMethod := by
  by_cases hcart : c.itemCount = 0
  · rw [checkoutOrder_guard name paymentTypes hcart] at h
    cases h
  · cases hpay : paymentLoop paymentTypes with
    | none =>
      rw [checkoutOrder_asking name hcart hpay] at h
      cases h
    | some paymentMethod =>
      by_cases hcap : c.itemCount ≤ MAX_CART_ITEMS
      · by_cases hroom : c.orderCount < MAX_ORDERS
        · rw [checkoutOrder_recorded name hcart hcap hpay hroom] at h
          injection h with h
          exact ⟨hcart, hcap, hroom, paymentMethod, rfl, h.symm⟩
        · rw [checkoutOrder_history_overrun name hcart hcap hpay hroom] at h
          cases h
      · rw [checkoutOrder_copy_overrun name hcart (Nat.lt_of_not_le hcap) hpay] at h
        cases h

theorem checkoutOrder_eq_emptyCart {c c' : ShoppingCart} {name : String}
    {paymentTypes : List String}
    (h : checkoutOrder c name paymentTypes = .emptyCart c') :
    c.itemCount = 0 ∧ c' = c := by
  by_cases hcart : c.itemCount = 0
  · rw [checkoutOrder_guard name paymentTypes hcart] at h
    injection h with h
    exact ⟨hcart, h.symm⟩
  · cases hpay : paymentLoop paymentTypes with
    | none =>
      rw [checkoutOrder_asking name hcart hpay] at h
      cases h
    | some paymentMethod =>
      by_cases hcap : c.itemCount ≤ MAX_CART_ITEMS
      · by_cases hroom : c.orderCount < MAX_ORDERS
        · rw [checkoutOrder_recorded name hcart hcap hpay hroom] at h
          cases h
        · rw [checkoutOrder_history_overrun name hcart hcap hpay hroom] at h
          cases h
      · rw [checkoutOrder_copy_overrun name hcart (Nat.lt_of_not_le hcap) hpay] at h
        cases h

/-! ## What every run preserves -/

theorem Inv.of_fresh {c : ShoppingCart} (h : Fresh c) : Inv 0 c := by
  obtain ⟨h1, -, h3, h4⟩ := h
  refine ⟨by simp [h1], h4, Nat.zero_le _, by simp [h3], ?_, ?_, ?_⟩
  · intro i hi; omega
  · intro i j hi; omega
  · intro i hi; omega

theorem Inv.of_addProduct {n : Nat} {c c' : ShoppingCart} {product : Product}
    {quantity : Int} (hinv : Inv n c) (hq : 1 ≤ quantity ∧ quantity ≤ INT_MAX)
    (h : addProduct c product quantity = .ok c') : Inv n c' := by
  rcases addProduct_eq_ok h with ⟨i, hfind, -, rfl⟩ | ⟨hfind, hlt, rfl⟩
  · refine ⟨hinv.cart_le, hinv.count_eq, hinv.count_le, hinv.counter_eq, hinv.ids,
      hinv.unique, ?_⟩
    intro j hj
    by_cases hji : j = i
    · subst hji
      simpa using wrapInt32_bounds _
    · simpa [Function.update_noteq hji] using hinv.qty_range j hj
  · have hnone := findLine_eq_none.mp hfind
    refine ⟨hlt, hinv.count_eq, hinv.count_le, hinv.counter_eq, hinv.ids, ?_, ?_⟩
    · intro i j hi hj hij
      simp only at hi hj hij
      by_cases hic : i = c.itemCount <;> by_cases hjc : j = c.itemCount
      · rw [hic, hjc]
      · subst hic
        have hj' : j < c.itemCount := by omega
        rw [Function.update_same, Function.update_noteq hjc] at hij
        exact absurd hij.symm (hnone j hj')
      · subst hjc
        have hi' : i < c.itemCount := by omega
        rw [Function.update_same, Function.update_noteq hic] at hij
        exact absurd hij (hnone i hi')
      · rw [Function.update_noteq hic, Function.update_noteq hjc] at hij
        exact hinv.unique i j (by omega) (by omega) hij
    · intro i hi
      simp only at hi ⊢
      by_cases hic : i = c.itemCount
      · subst hic
        rw [Function.update_same]
        exact ⟨by omega, hq.2⟩
      · rw [Function.update_noteq hic]
        exact hinv.qty_range i (by omega)

theorem Inv.of_clearCart {n : Nat} {c : ShoppingCart} (hinv : Inv n c) :
    Inv n (clearCart c) := by
  refine ⟨Nat.zero_le _, hinv.count_eq, hinv.count_le, hinv.counter_eq, hinv.ids, ?_, ?_⟩
  · intro i j hi; exact absurd hi (Nat.not_lt_zero _)
  · intro i hi; exact absurd hi (Nat.not_lt_zero _)

theorem Inv.of_checkout {n : Nat} {c c' : ShoppingCart} {name : String}
    {paymentTypes : List String} (hinv : Inv n c)
    (h : checkoutOrder c name paymentTypes = .checkedOut c') : Inv (n + 1) c' := by
  obtain ⟨-, -, hroom, paymentMethod, -, rfl⟩ := checkoutOrder_eq_checkedOut h
  have hn := hinv.count_eq
  have hmax : MAX_ORDERS = 50 := rfl
  refine ⟨Nat.zero_le _, ?_, ?_, ?_, ?_, ?_, ?_⟩
  · simp [afterCheckout, clearCart, hn]
  · omega
  · have : wrapInt32 (c.orderCounter + 1) = c.orderCounter + 1 := by
      apply wrapInt32_of_inRange <;> rw [hinv.counter_eq] <;>
        (try unfold INT_MAX) <;> omega
    show wrapInt32 (c.orderCounter + 1) = ((n + 1 : Nat) : Int) + 1
    rw [this, hinv.counter_eq]
    push_cast
    rfl
  · intro i hi
    simp only [afterCheckout, clearCart]
    by_cases hin : i = c.orderCount
    · subst hin
      rw [Function.update_same]
      simp [Order.new, hinv.counter_eq, hn]
    · rw [Function.update_noteq hin]
      exact hinv.ids i (by omega)
  · intro i j hi; exact absurd hi (Nat.not_lt_zero _)
  · intro i hi; exact absurd hi (Nat.not_lt_zero _)

/-- Every state of a run whose `addProduct` quantities are positive `int`s
satisfies `Inv`. -/
theorem inv_of_run {admissible : ShoppingCart → Product → Int → Prop}
    (hadm : ∀ c product quantity, admissible c product quantity →
      1 ≤ quantity ∧ quantity ≤ INT_MAX)
    {n : Nat} {c : ShoppingCart} (hrun : Run admissible n c) : Inv n c := by
  induction hrun with
  | fresh h => exact Inv.of_fresh h
  | add product quantity _ hq h ih => exact ih.of_addProduct (hadm _ _ _ hq) h
  | clear _ ih => exact ih.of_clearCart
  | guarded name paymentTypes _ h ih =>
    obtain ⟨-, rfl⟩ := checkoutOrder_eq_emptyCart h
    exact ih
  | recorded name paymentTypes _ h ih => exact ih.of_checkout h

theorem anyProduct_quantity (c : ShoppingCart) (product : Product) (quantity : Int)
    (h : AnyProduct c product quantity) : 1 ≤ quantity ∧ quantity ≤ INT_MAX := h

theorem maxOrderID_of_ids {orderHistory : Nat → Order} {n : Nat}
    (hids : ∀ i, i < n → (orderHistory i).orderID = i + 1) :
    maxOrderID orderHistory n = if n = 0 then none else some (n : Int) := by
  induction n with
  | zero => rfl
  | succ k ih =>
    have ih := ih fun i hi => hids i (Nat.lt_succ_of_lt hi)
    have hk := hids k (Nat.lt_succ_self k)
    unfold maxOrderID
    rw [ih, hk]
    by_cases hk0 : k = 0
    · simp [hk0]
    · simp only [hk0, if_false, Nat.succ_ne_zero]
      congr 1
      push_cast
      omega

theorem expectedNextID_of_inv {n : Nat} {c : ShoppingCart} (hinv : Inv n c) :
    expectedNextID c = c.orderCounter := by
  unfold expectedNextID
  rw [hinv.count_eq, maxOrderID_of_ids hinv.ids, hinv.counter_eq]
  by_cases hn : n = 0
  · simp [hn]
  · simp [hn]

/-! ## The running total -/

/-- C1: in every state of a run whose cart has at least one line and whose
order history is below its capacity, a checkout with any customer name and
entered payment lines of which one is accepted records an order: the cart is
left with no lines and total 0, the order count grows by exactly 1, and the id
of the newly recorded order is the largest id recorded before plus 1, or 1 if
no order had been recorded. -/
theorem checkout_empties_cart_and_assigns_next_id {n : Nat} {c : ShoppingCart}
    (hrun : Run AnyProduct n c) (hcart : 0 < c.itemCount)
    (hroom : c.orderCount < MAX_ORDERS) (name : String)
    {paymentTypes : List String} {paymentMethod : PaymentStrategy}
    (hpay : paymentLoop paymentTypes = some paymentMethod) :
    ∃ c', checkoutOrder c name paymentTypes = .checkedOut c' ∧
      c'.itemCount = 0 ∧ c'.totalAmount = 0 ∧
      c'.orderCount = c.orderCount + 1 ∧
      (c'.orderHistory c.orderCount).orderID = expectedNextID c := by
  have hinv := inv_of_run anyProduct_quantity hrun
  refine ⟨afterCheckout c name paymentMethod,
    checkoutOrder_recorded name (Nat.pos_iff_ne_zero.mp hcart) hinv.cart_le hpay hroom,
    rfl, rfl, rfl, ?_⟩
  rw [expectedNextID_of_inv hinv]
  simp [afterCheckout, clearCart, Order.new]

theorem checkout_empties_cart_and_assigns_next_id_witness :
    ∃ c, Run AnyProduct 0 c ∧ 0 < c.itemCount ∧ c.orderCount < MAX_ORDERS ∧
      paymentLoop ["bitcoin", "GCash"] = some .GcashPayment ∧
      ∃ c', checkoutOrder c "Ana" ["bitcoin", "GCash"] = .checkedOut c' ∧
        c'.itemCount = 0 ∧ c'.totalAmount = 0 ∧
        c'.orderCount = c.orderCount + 1 ∧
        (c'.orderHistory c.orderCount).orderID = expectedNextID c :=
  have hrun : Run AnyProduct 0 _ :=
    Run.add ⟨"Notebook", 101, 100⟩ 2 (Run.fresh (c := newCart) ⟨rfl, rfl, rfl, rfl⟩)
      ⟨by decide, by decide⟩ rfl
  ⟨_, hrun, by decide, by decide, by decide,
    checkout_empties_cart_and_assigns_next_id hrun (by decide) (by decide) "Ana"
      (by decide : paymentLoop ["bitcoin", "GCash"] = some .GcashPayment)⟩

/-! ## C2: the cart total -/

/-- C4: for every cart with at least one line (and at most the
`MAX_CART_ITEMS` lines its arrays hold), a checkout that passes the payment loop
with room left in the history records, at the next history slot, an order that
carries the cart's line count and, line by line in the cart's order, the
cart's products and quantities, the cart's `totalAmount` as its total, the
entered customer name, the label of the resolved payment strategy and the
current order counter as id.  In particular, on a cart with no lines and
total 0, adding product 101 (price 100) with quantity 2 and checking out
records an order with total 200 and exactly one line, of product 101 with
quantity 2. -/
theorem checkout_records_cart_snapshot (c : ShoppingCart) (name : String)
    {paymentTypes : List String} {paymentMethod : PaymentStrategy}
    (hpay : paymentLoop paymentTypes = some paymentMethod)
    (hroom : c.orderCount < MAX_ORDERS) :
    (0 < c.itemCount → c.itemCount ≤ MAX_CART_ITEMS →
      ∃ c', checkoutOrder c name paymentTypes = .checkedOut c' ∧
        (c'.orderHistory c.orderCount).itemCount = c.itemCount ∧
        (∀ i, i < c.itemCount →
          (c'.orderHistory c.orderCount).orderItems i = c.productList i ∧
          (c'.orderHistory c.orderCount).orderQuantities i = c.productQty i) ∧
        (c'.orderHistory c.orderCount).orderTotal = c.totalAmount ∧
        (c'.orderHistory c.orderCount).customerName = name ∧
        (c'.orderHistory c.orderCount).orderPayment = paymentMethod.pay ∧
        (c'.orderHistory c.orderCount).orderID = c.orderCounter) ∧
    (c.itemCount = 0 → c.totalAmount = 0 → ∀ productName : String,
      ∃ c₁ c₂, addProduct c ⟨productName, 101, 100⟩ 2 = .ok c₁ ∧
        checkoutOrder c₁ name paymentTypes = .checkedOut c₂ ∧
        (c₂.orderHistory c.orderCount).orderTotal = 200 ∧
        (c₂.orderHistory c.orderCount).itemCount = 1 ∧
        (c₂.orderHistory c.orderCount).orderItems 0 = ⟨productName, 101, 100⟩ ∧
        (c₂.orderHistory c.orderCount).orderQuantities 0 = 2) := by
  constructor
  · intro hcart hcap
    refine ⟨afterCheckout c name paymentMethod,
      checkoutOrder_recorded name (Nat.pos_iff_ne_zero.mp hcart) hcap hpay hroom, ?_⟩
    simp only [afterCheckout, clearCart, Function.update_same, Order.new, true_and,
      and_true]
    intro i hi
    simp [hi]
  · intro hcount htotal productName
    obtain ⟨productList, productQty, itemCount, totalAmount, orderHistory, orderCounter,
      orderCount⟩ := c
    simp only at hcount htotal hroom
    subst hcount htotal
    have hfind : findLine ⟨productList, productQty, 0, 0, orderHistory, orderCounter,
        orderCount⟩ (Product.mk productName 101 100).productID = none := by
      simp [findLine]
    have hadd := addProduct_new 2 hfind (by show 0 < MAX_CART_ITEMS; decide)
    refine ⟨_, _, hadd,
      checkoutOrder_recorded name (by simp) (by show 0 + 1 ≤ MAX_CART_ITEMS; decide)
        hpay hroom, ?_⟩
    simp only [afterCheckout, clearCart, Function.update_same, Order.new]
    refine ⟨by norm_num, by simp, by simp, by simp⟩

theorem checkout_records_cart_snapshot_witness :
    paymentLoop ["Cash"] = some .CashPayment ∧ newCart.orderCount < MAX_ORDERS ∧
      newCart.itemCount = 0 ∧ newCart.totalAmount = 0 ∧
      (∃ c₁ c₂, addProduct newCart ⟨"Notebook", 101, 100⟩ 2 = .ok c₁ ∧
        checkoutOrder c₁ "Ana" ["Cash"] = .checkedOut c₂ ∧
        (c₂.orderHistory newCart.orderCount).orderTotal = 200 ∧
        (c₂.orderHistory newCart.orderCount).itemCount = 1 ∧
        (c₂.orderHistory newCart.orderCount).orderItems 0 = ⟨"Notebook", 101, 100⟩ ∧
        (c₂.orderHistory newCart.orderCount).orderQuantities 0 = 2) ∧
      ∃ c, addProducts newCart [(⟨"Pen", 102, 20⟩, 3), (⟨"Clip", 105, 10⟩, 4)] = .ok c ∧
        0 < c.itemCount ∧
        c.itemCount ≤ MAX_CART_ITEMS ∧ c.orderCount < MAX_ORDERS ∧
        ∃ c', checkoutOrder c "Ana" ["Cash"] = .checkedOut c' ∧
          (c'.orderHistory c.orderCount).itemCount = c.itemCount ∧
          (∀ i, i < c.itemCount →
            (c'.orderHistory c.orderCount).orderItems i = c.productList i ∧
            (c'.orderHistory c.orderCount).orderQuantities i = c.productQty i) ∧
          (c'.orderHistory c.orderCount).orderTotal = c.totalAmount ∧
          (c'.orderHistory c.orderCount).customerName = "Ana" ∧
          (c'.orderHistory c.orderCount).orderPayment = "Cash" ∧
          (c'.orderHistory c.orderCount).orderID = c.orderCounter :=
  have hpay : paymentLoop ["Cash"] = some .CashPayment := by decide
  ⟨hpay, by decide, rfl, rfl,
    (checkout_records_cart_snapshot newCart "Ana" hpay (by decide)).2 rfl rfl "Notebook",
    _, rfl, by decide, by decide, by decide,
    (checkout_records_cart_snapshot _ "Ana" hpay (by decide)).1 (by decide) (by decide)⟩

/-! ## C5: checkout of an empty cart -/

/-- C5: in every state whose cart has no lines, `checkoutOrder` stops at the
empty-cart guard and the state after the call is the state before it: order
history, order count, next-order-id counter and cart are all unchanged. -/
theorem checkout_of_empty_cart_changes_nothing (c : ShoppingCart) (name : String)
    (paymentTypes : List String) (hcart : c.itemCount = 0) :
    checkoutOrder c name paymentTypes = .emptyCart c := by
  unfold checkoutOrder
  rw [if_pos hcart]

theorem checkout_of_empty_cart_changes_nothing_witness :
    newCart.itemCount = 0 ∧ checkoutOrder newCart "Ana" ["cash"] = .emptyCart newCart :=
  ⟨rfl, checkout_of_empty_cart_changes_nothing newCart "Ana" ["cash"] rfl⟩

/-! ## C6: payment selection -/

/-- C6: for every entered payment line, with `lowerCase` replacing exactly the
letters `A`..`Z` by `a`..`z`, the payment selection of `checkoutOrder` picks
the Cash, Credit Card, Debit Card or GCash strategy exactly when the lowered
line is literally `cash`, `credit card`, `debit card` or `gcash`, and rejects
the line exactly when the lowered line is none of the four; the strategies
report the labels `Cash`, `Credit Card`, `Debit Card`, `GCash`; in particular
`CASH`, `cash` and `Cash` all select Cash and `bitcoin` is rejected. -/
theorem payment_selection_by_lowered_label (paymentType : String) :
    ((lowerCase paymentType).data = paymentType.data.map fun ch =>
        if 65 ≤ ch.toNat ∧ ch.toNat ≤ 90 then Char.ofNat (ch.toNat + 32) else ch) ∧
    (selectPayment paymentType = some .CashPayment ↔ lowerCase paymentType = "cash") ∧
    (selectPayment paymentType = some .CreditCardPayment ↔
      lowerCase paymentType = "credit card") ∧
    (selectPayment paymentType = some .DebitCardPayment ↔
      lowerCase paymentType = "debit card") ∧
    (selectPayment paymentType = some .GcashPayment ↔ lowerCase paymentType = "gcash") ∧
    (selectPayment paymentType = none ↔
      lowerCase paymentType ∉ ["cash", "credit card", "debit card", "gcash"]) ∧
    (PaymentStrategy.CashPayment.pay = "Cash" ∧
      PaymentStrategy.CreditCardPayment.pay = "Credit Card" ∧
      PaymentStrategy.DebitCardPayment.pay = "Debit Card" ∧
      PaymentStrategy.GcashPayment.pay = "GCash") ∧
    (selectPayment "CASH" = some .CashPayment ∧ selectPayment "cash" = some .CashPayment ∧
      selectPayment "Cash" = some .CashPayment ∧ selectPayment "bitcoin" = none) := by
  have h12 : ("cash" : String) ≠ "credit card" := by decide
  have h13 : ("cash" : String) ≠ "debit card" := by decide
  have h14 : ("cash" : String) ≠ "gcash" := by decide
  have h23 : ("credit card" : String) ≠ "debit card" := by decide
  have h24 : ("credit card" : String) ≠ "gcash" := by decide
  have h34 : ("debit card" : String) ≠ "gcash" := by decide
  refine ⟨rfl, ?_, ?_, ?_, ?_, ?_, ⟨rfl, rfl, rfl, rfl⟩,
    ⟨by decide, by decide, by decide, by decide⟩⟩
  all_goals
    unfold selectPayment
    simp only []
    by_cases h1 : lowerCase paymentType = "cash"
    · simp [h1, h12, h13, h14]
    · by_cases h2 : lowerCase paymentType = "credit card"
      · simp [h2, h12.symm, h23, h24]
      · by_cases h3 : lowerCase paymentType = "debit card"
        · simp [h3, h13.symm, h23.symm, h34]
        · by_cases h4 : lowerCase paymentType = "gcash"
          · simp [h4, h14.symm, h24.symm, h34.symm]
          · simp [h1, h2, h3, h4]

/-! ## C7: order ids -/

/-- C7: after any run from a fresh `ShoppingCart` in which `n` checkouts
recorded an order, however many `addProduct` calls, empty-cart checkout
attempts and rejected payment lines came in between, `n` is within the capacity
of the history, exactly `n` orders are recorded, and the order at position `i`
(counting from 0) has id `i + 1`: the ids are 1, 2, ..., n in recording order,
strictly increasing, without gaps or repeats. -/
theorem order_ids_are_one_to_n {n : Nat} {c : ShoppingCart}
    (hrun : Run AnyProduct n c) :
    n ≤ MAX_ORDERS ∧ c.orderCount = n ∧
      (∀ i, i < n → (c.orderHistory i).orderID = i + 1) ∧
      (∀ i j, i < j → j < n →
        (c.orderHistory i).orderID < (c.orderHistory j).orderID) := by
  have hinv := inv_of_run anyProduct_quantity hrun
  refine ⟨hinv.count_le, hinv.count_eq, hinv.ids, ?_⟩
  intro i j hij hj
  rw [hinv.ids i (by omega), hinv.ids j hj]
  omega

theorem order_ids_are_one_to_n_witness :
    ∃ c, Run AnyProduct 2 c ∧ 2 ≤ MAX_ORDERS ∧ c.orderCount = 2 ∧
      (∀ i, i < 2 → (c.orderHistory i).orderID = i + 1) ∧
      (∀ i j, i < j → j < 2 →
        (c.orderHistory i).orderID < (c.orderHistory j).orderID) :=
  have h0 : Run AnyProduct 0 newCart := Run.fresh ⟨rfl, rfl, rfl, rfl⟩
  have h1 : Run AnyProduct 0 _ := Run.guarded "Ana" ["cash"] h0 rfl
  have h2 : Run AnyProduct 0 _ := Run.add ⟨"Pen", 102, 20⟩ 4 h1 ⟨by decide, by decide⟩ rfl
  have h3 : Run AnyProduct 1 _ := Run.recorded "Ana" ["bitcoin", "", "Debit Card"] h2 rfl
  have h4 : Run AnyProduct 1 _ := Run.guarded "Ben" ["cash"] h3 rfl
  have h5 : Run AnyProduct 1 _ := Run.add ⟨"Clip", 105, 10⟩ 1 h4 ⟨by decide, by decide⟩ rfl
  have h6 : Run AnyProduct 1 _ := Run.add ⟨"Pen", 102, 20⟩ 1 h5 ⟨by decide, by decide⟩ rfl
  have h7 : Run AnyProduct 2 _ := Run.recorded "Ben" ["check", "CASH"] h6 rfl
  ⟨_, h7, order_ids_are_one_to_n h7⟩

/-! ## C8: one line per product id -/

/-- C8, as stated, fails in its second half: in the cart reached from a fresh
one by `addProduct(Notebook, 2147483647)`, adding the same product again with
quantity 1 keeps the single line but its `int` quantity wraps to -2147483648:
the quantity of the line decreases. -/
theorem readding_can_decrease_quantity :
    ∃ c c', addProduct newCart ⟨"Notebook", 101, 100⟩ 2147483647 = .ok c ∧
      Run AnyProduct 0 c ∧ c.itemCount = 1 ∧ c.productQty 0 = 2147483647 ∧
      addProduct c ⟨"Notebook", 101, 100⟩ 1 = .ok c' ∧
      c'.itemCount = 1 ∧ c'.productQty 0 = -2147483648 ∧
      c'.productQty 0 < c.productQty 0 :=
  have hrun : Run AnyProduct 0 _ :=
    Run.add ⟨"Notebook", 101, 100⟩ 2147483647
      (Run.fresh (c := newCart) ⟨rfl, rfl, rfl, rfl⟩) ⟨by decide, by decide⟩ rfl
  ⟨_, _, rfl, hrun, rfl, by decide, rfl, rfl, by decide, by decide⟩

/-- C8 (amended): in every state of a run from a fresh `ShoppingCart` by
`addProduct`, `clearCart` and `checkoutOrder` no two cart lines have the same
product id; and adding a product whose id is already on line `i`, with a
quantity that keeps the line's quantity within the range of `int`, returns a
cart with the same number of lines, the same products on them, the quantity of
line `i` increased by the added quantity and the other quantities unchanged. -/
theorem lines_unique_and_readd_accumulates {n : Nat} {c : ShoppingCart}
    (hrun : Run AnyProduct n c) :
    UniqueLines c ∧
      ∀ (i : Nat) (product : Product) (quantity : Int), i < c.itemCount →
        product.productID = (c.productList i).productID → 1 ≤ quantity →
        c.productQty i + quantity ≤ INT_MAX →
        ∃ c', addProduct c product quantity = .ok c' ∧
          c'.itemCount = c.itemCount ∧ c'.productList = c.productList ∧
          c'.productQty i = c.productQty i + quantity ∧
          c.productQty i < c'.productQty i ∧
          ∀ j, j ≠ i → c'.productQty j = c.productQty j := by
  have hinv := inv_of_run anyProduct_quantity hrun
  refine ⟨hinv.unique, ?_⟩
  intro i product quantity hi hid hq hrange
  have hfind : findLine c product.productID = some i := by
    rw [hid]
    exact findLine_of_unique hinv.unique hi
  have hcap : i < MAX_CART_ITEMS := Nat.lt_of_lt_of_le hi hinv.cart_le
  have hwrap : wrapInt32 (c.productQty i + quantity) = c.productQty i + quantity :=
    wrapInt32_of_inRange (by have := (hinv.qty_range i hi).1; omega) hrange
  refine ⟨_, addProduct_found quantity hfind hcap, rfl, rfl, ?_, ?_, ?_⟩
  · simp only [Function.update_same, hwrap]
  · simp only [Function.update_same, hwrap]
    omega
  · intro j hj
    simp only [Function.update_noteq hj]

theorem lines_unique_and_readd_accumulates_witness :
    ∃ c, addProducts newCart [(⟨"Notebook", 101, 100⟩, 2), (⟨"Pen", 102, 20⟩, 3)] = .ok c ∧
      Run AnyProduct 0 c ∧ UniqueLines c ∧
      ∃ c', addProduct c ⟨"Notebook", 101, 100⟩ 4 = .ok c' ∧
        c'.itemCount = c.itemCount ∧ c'.productList = c.productList ∧
        c'.productQty 0 = c.productQty 0 + 4 ∧
        c.productQty 0 < c'.productQty 0 ∧
        ∀ j, j ≠ 0 → c'.productQty j = c.productQty j :=
  have hrun : Run AnyProduct 0 _ :=
    Run.add ⟨"Pen", 102, 20⟩ 3
      (Run.add ⟨"Notebook", 101, 100⟩ 2 (Run.fresh (c := newCart) ⟨rfl, rfl, rfl, rfl⟩)
        ⟨by decide, by decide⟩ rfl)
      ⟨by decide, by decide⟩ rfl
  ⟨_, rfl, hrun, (lines_unique_and_readd_accumulates hrun).1,
    (lines_unique_and_readd_accumulates hrun).2 0 ⟨"Notebook", 101, 100⟩ 4
      (by decide) rfl (by decide) (by decide)⟩

/-! ## C9: adding to a full cart -/

/-- C10 (what the code does): in a state whose history holds `MAX_ORDERS`
orders, a checkout of a cart with at least one line that passes the payment
loop performs no capacity check: it reaches the assignment
`orderHistory[orderCount++] = Order(...)` with `orderCount = 50`, outside the
array of 50 elements. -/
theorem checkout_with_full_history_writes_out_of_bounds (c : ShoppingCart) (name : String)
    {paymentTypes : List String} {paymentMethod : PaymentStrategy}
    (hcart : 0 < c.itemCount) (hcap : c.itemCount ≤ MAX_CART_ITEMS)
    (hfull : c.orderCount = MAX_ORDERS)
    (hpay : paymentLoop paymentTypes = some paymentMethod) :
    checkoutOrder c name paymentTypes =
      .undefined (.indexOutOfBounds MAX_ORDERS MAX_ORDERS) := by
  rw [checkoutOrder_history_overrun name (Nat.pos_iff_ne_zero.mp hcart) hcap hpay
    (by rw [hfull]; exact Nat.lt_irrefl _), hfull]

theorem checkout_with_full_history_writes_out_of_bounds_witness :
    ∃ c c', purchases 50 newCart = some c ∧ c.orderCount = MAX_ORDERS ∧
      addProduct c ⟨"Notebook", 101, 100⟩ 1 = .ok c' ∧ 0 < c'.itemCount ∧
      c'.itemCount ≤ MAX_CART_ITEMS ∧ c'.orderCount = MAX_ORDERS ∧
      paymentLoop ["cash"] = some .CashPayment ∧
      checkoutOrder c' "Ana" ["cash"] =
        .undefined (.indexOutOfBounds MAX_ORDERS MAX_ORDERS) :=
  ⟨_, _, rfl, rfl, rfl, by decide, by decide, rfl, by decide,
    checkout_with_full_history_writes_out_of_bounds _ "Ana" (by decide) (by decide) rfl
      (by decide : paymentLoop ["cash"] = some .CashPayment)⟩

end Shop
